import Mathlib

/-!
Shallow embedding of `app.py` (individual CO₂ footprint tracker).

Numeric values are modelled as exact rationals (`ℚ`).  Python's `round(x, n)`
is modelled as scaling by `10^n`, rounding to the nearest integer and scaling
back; Python rounds exact ties to the even integer while `round` here rounds
ties up, but no statement below depends on a tie.

The SQLite table `logs` is modelled as a list of rows plus the next surrogate
id (`INTEGER PRIMARY KEY` auto-assignment; the table is append-only, so the
next id is one more than the number of rows ever inserted).  `ORDER BY date
ASC` on the TEXT column is modelled as an insertion sort by the string order
on the `date` field.  `datetime.now()` is an environment input, so the
submission time is a field of the form input.
-/

/-- Python `round(x, 3)` on exact rationals. -/
def round3 (x : ℚ) : ℚ := ((round (x * 1000) : ℤ) : ℚ) / 1000

/-- Python `round(x, 2)` on exact rationals. -/
def round2 (x : ℚ) : ℚ := ((round (x * 100) : ℤ) : ℚ) / 100

/-- The fixed emission-factor table of `app.py` (kg CO₂ per unit). -/
structure EmissionFactors where
  transport_km_car : ℚ
  transport_km_bus : ℚ
  transport_km_bike_walk : ℚ
  electricity_kwh : ℚ
  meat_meal : ℚ
  veg_meal : ℚ
  plastic_item : ℚ

def EMISSION_FACTORS : EmissionFactors :=
  { transport_km_car := 0.192
    transport_km_bus := 0.089
    transport_km_bike_walk := 0.0
    electricity_kwh := 0.82
    meat_meal := 5.0
    veg_meal := 2.0
    plastic_item := 0.1 }

/-- The fixed baseline assumptions of `app.py`. -/
structure BaselineAssumptions where
  car_km_per_day : ℚ
  electricity_kwh_per_day : ℚ
  meat_meals_per_day : ℚ
  plastic_items_per_day : ℚ

def BASELINE : BaselineAssumptions :=
  { car_km_per_day := 10
    electricity_kwh_per_day := 4
    meat_meals_per_day := 1
    plastic_items_per_day := 2 }

/-- Source function `calculate_co2` of `app.py` (lines 83–94): running sum of
the seven weighted terms, the plastic term subtracted, result rounded to 3
decimals. -/
def calculate_co2 (car_km bus_km bike_walk_km electricity_kwh
    meat_meals veg_meals plastic_items_avoided : ℚ) : ℚ :=
  let e := EMISSION_FACTORS
  let co2 : ℚ := 0.0
  let co2 := co2 + car_km * e.transport_km_car
  let co2 := co2 + bus_km * e.transport_km_bus
  let co2 := co2 + bike_walk_km * e.transport_km_bike_walk
  let co2 := co2 + electricity_kwh * e.electricity_kwh
  let co2 := co2 + meat_meals * e.meat_meal
  let co2 := co2 + veg_meals * e.veg_meal
  let co2 := co2 - plastic_items_avoided * e.plastic_item
  round3 co2

/-- Source function `baseline_daily_co2` of `app.py` (lines 96–104). -/
def baseline_daily_co2 : ℚ :=
  let b := BASELINE
  let e := EMISSION_FACTORS
  let base : ℚ := 0.0
  let base := base + b.car_km_per_day * e.transport_km_car
  let base := base + b.electricity_kwh_per_day * e.electricity_kwh
  let base := base + b.meat_meals_per_day * e.meat_meal
  let base := base + b.plastic_items_per_day * e.plastic_item
  round3 base

/-- The column values a caller passes to `insert_log` (everything of a `logs`
row except the auto-assigned `id`).  `meat_meals`, `veg_meals` and
`plastic_items_avoided` are INTEGER columns. -/
structure DataRecord where
  user : String
  date : String
  car_km : ℚ
  bus_km : ℚ
  bike_walk_km : ℚ
  electricity_kwh : ℚ
  meat_meals : ℤ
  veg_meals : ℤ
  plastic_items_avoided : ℤ
  co2_kg : ℚ
  created_at : String
  deriving DecidableEq

/-- One row of the `logs` table. -/
structure Row where
  id : ℕ
  user : String
  date : String
  car_km : ℚ
  bus_km : ℚ
  bike_walk_km : ℚ
  electricity_kwh : ℚ
  meat_meals : ℤ
  veg_meals : ℤ
  plastic_items_avoided : ℤ
  co2_kg : ℚ
  created_at : String
  deriving DecidableEq

/-- The row stored for caller data `d` under surrogate id `n`. -/
def mkRow (n : ℕ) (d : DataRecord) : Row :=
  { id := n
    user := d.user
    date := d.date
    car_km := d.car_km
    bus_km := d.bus_km
    bike_walk_km := d.bike_walk_km
    electricity_kwh := d.electricity_kwh
    meat_meals := d.meat_meals
    veg_meals := d.veg_meals
    plastic_items_avoided := d.plastic_items_avoided
    co2_kg := d.co2_kg
    created_at := d.created_at }

/-- The caller-visible columns of a stored row (drops the surrogate id). -/
def Row.toData (r : Row) : DataRecord :=
  { user := r.user
    date := r.date
    car_km := r.car_km
    bus_km := r.bus_km
    bike_walk_km := r.bike_walk_km
    electricity_kwh := r.electricity_kwh
    meat_meals := r.meat_meals
    veg_meals := r.veg_meals
    plastic_items_avoided := r.plastic_items_avoided
    co2_kg := r.co2_kg
    created_at := r.created_at }

/-- The database connection state: the `logs` table and the next surrogate id. -/
structure Conn where
  rows : List Row
  nextId : ℕ
  deriving DecidableEq

/-- Source function `init_db` of `app.py` (lines 29–49): creates the empty
`logs` table. -/
def init_db : Conn := { rows := [], nextId := 1 }

/-- Source function `insert_log` of `app.py` (lines 51–70): the INSERT names every column
except `id`, so SQLite assigns the next surrogate id; all other column
values, `created_at` included, come from the caller's `data` dict. -/
def insert_log (conn : Conn) (data : DataRecord) : Conn :=
  { rows := conn.rows ++ [mkRow conn.nextId data]
    nextId := conn.nextId + 1 }

/-- The row selection of `fetch_logs` (lines 74–77).  The Python guard
`if user:` is falsy for `None` and for the empty string, so only a
non-empty label selects the filtered query. -/
def rowsToFetch (conn : Conn) : Option String → List Row
  | some u => if u = "" then conn.rows else conn.rows.filter (fun r => r.user = u)
  | none => conn.rows

/-- Source function `fetch_logs` of `app.py` (lines 72–80): the selected
rows, ordered by the TEXT `date` column ascending. -/
def fetch_logs (conn : Conn) (user : Option String) : List Row :=
  List.insertionSort (fun a b => a.date ≤ b.date) (rowsToFetch conn user)

instance : IsTotal Row (fun a b => a.date ≤ b.date) :=
  ⟨fun a b => le_total a.date b.date⟩

instance : IsTrans Row (fun a b => a.date ≤ b.date) :=
  ⟨fun _ _ _ hab hbc => le_trans hab hbc⟩

/-- One form submission of `main` (lines 126–139): the values read from the
widgets, plus the wall-clock time `datetime.now()` observed at submission. -/
structure FormInput where
  user : String
  date_input : String
  car_km : ℚ
  bus_km : ℚ
  bike_walk_km : ℚ
  electricity_kwh : ℚ
  meat_meals : ℤ
  veg_meals : ℤ
  plastic_items_avoided : ℤ
  now : String
  deriving DecidableEq

/-- The record `main` builds on submission (lines 150–162). -/
def recordOf (f : FormInput) : DataRecord :=
  { user := f.user
    date := f.date_input
    car_km := f.car_km
    bus_km := f.bus_km
    bike_walk_km := f.bike_walk_km
    electricity_kwh := f.electricity_kwh
    meat_meals := f.meat_meals
    veg_meals := f.veg_meals
    plastic_items_avoided := f.plastic_items_avoided
    co2_kg := calculate_co2 f.car_km f.bus_km f.bike_walk_km f.electricity_kwh
        (f.meat_meals : ℚ) (f.veg_meals : ℚ) (f.plastic_items_avoided : ℚ)
    created_at := f.now }

/-- The calculate-then-persist cycle of `main` (lines 141–163). -/
def submit (conn : Conn) (f : FormInput) : Conn :=
  insert_log conn (recordOf f)

/-- The store reached from a fresh database by a sequence of submissions. -/
def submitAll (fs : List FormInput) : Conn :=
  fs.foldl submit init_db

/-- Local variable `saved` of `main` line 146. -/
def saved_of (baseline co2 : ℚ) : ℚ := round3 (max 0.0 (baseline - co2))

/-- Local variable `pct` of `main` line 147. -/
def pct_of (baseline co2 : ℚ) : ℚ :=
  round2 (if baseline > 0 then saved_of baseline co2 / baseline * 100 else 0)

/-- The saved-vs-baseline percentage `main` computes for a submission. -/
def submission_pct (car_km bus_km bike_walk_km electricity_kwh
    meat_meals veg_meals plastic_items_avoided : ℚ) : ℚ :=
  pct_of baseline_daily_co2
    (calculate_co2 car_km bus_km bike_walk_km electricity_kwh
      meat_meals veg_meals plastic_items_avoided)

/-- A sequence of direct `insert_log` calls against one connection. -/
def insertAll (conn : Conn) (ds : List DataRecord) : Conn :=
  ds.foldl insert_log conn

/-- The rows `insertAll` appends: one per record, with consecutive ids. -/
def rowsFrom (n : ℕ) : List DataRecord → List Row
  | [] => []
  | d :: ds => mkRow n d :: rowsFrom (n + 1) ds

/-- A concrete record for the user label `alice`. -/
def dAlice : DataRecord :=
  { user := "alice", date := "2024-01-02", car_km := 0, bus_km := 0, bike_walk_km := 0,
    electricity_kwh := 0, meat_meals := 0, veg_meals := 0, plastic_items_avoided := 0,
    co2_kg := 0, created_at := "2024-01-02T08:00:00" }

/-- A store holding one row, for user label `alice`. -/
def s0 : Conn := { rows := [mkRow 1 dAlice], nextId := 2 }

/-- A concrete record whose user label is the empty string. -/
def dEmptyUser : DataRecord := { dAlice with user := "", date := "2024-01-01" }

/-- A record identical to `dAlice` except for its `created_at` value. -/
def dB : DataRecord := { dAlice with created_at := "2024-01-02T09:00:00" }

/-- A concrete form submission. -/
def f0 : FormInput :=
  { user := "u1", date_input := "2024-01-03", car_km := 10, bus_km := 0, bike_walk_km := 0,
    electricity_kwh := 4, meat_meals := 1, veg_meals := 0, plastic_items_avoided := 2,
    now := "2024-01-03T20:00:00" }

/-- A concrete record for the user label `u1`. -/
def dU1 : DataRecord :=
  { user := "u1", date := "2024-01-05", car_km := 1, bus_km := 2, bike_walk_km := 3,
    electricity_kwh := 4, meat_meals := 1, veg_meals := 2, plastic_items_avoided := 3,
    co2_kg := 10, created_at := "2024-01-05T07:00:00" }

lemma round3_exact (x : ℚ) (n : ℤ) (h : x * 1000 = (n : ℚ)) : round3 x = (n : ℚ) / 1000 := by
  unfold round3; rw [h, round_intCast]

lemma round2_exact (x : ℚ) (n : ℤ) (h : x * 100 = (n : ℚ)) : round2 x = (n : ℚ) / 100 := by
  unfold round2; rw [h, round_intCast]

lemma round_rat_eq (x : ℚ) (n : ℤ) (h1 : (n : ℚ) ≤ x + 1/2) (h2 : x + 1/2 < n + 1) :
    round x = n := by
  rw [round_eq]; exact Int.floor_eq_iff.mpr ⟨h1, h2⟩

lemma round_rat_mono {a b : ℚ} (h : a ≤ b) : round a ≤ round b := by
  rw [round_eq, round_eq]; exact Int.floor_mono (by linarith)

lemma round3_mono {a b : ℚ} (h : a ≤ b) : round3 a ≤ round3 b := by
  unfold round3
  have := round_rat_mono (show a * 1000 ≤ b * 1000 by linarith)
  have hc : ((round (a * 1000) : ℤ) : ℚ) ≤ ((round (b * 1000) : ℤ) : ℚ) := by exact_mod_cast this
  linarith

lemma round2_mono {a b : ℚ} (h : a ≤ b) : round2 a ≤ round2 b := by
  unfold round2
  have := round_rat_mono (show a * 100 ≤ b * 100 by linarith)
  have hc : ((round (a * 100) : ℤ) : ℚ) ≤ ((round (b * 100) : ℤ) : ℚ) := by exact_mod_cast this
  linarith

lemma round3_zero : round3 0 = 0 := by
  rw [round3_exact 0 0 (by norm_num)]; norm_num

lemma round2_zero : round2 0 = 0 := by
  rw [round2_exact 0 0 (by norm_num)]; norm_num

lemma baseline_value : baseline_daily_co2 = 52/5 := by
  unfold baseline_daily_co2
  rw [round3_exact _ 10400 (by norm_num [BASELINE, EMISSION_FACTORS])]
  norm_num

lemma insertAll_rows : ∀ (ds : List DataRecord) (conn : Conn),
    (insertAll conn ds).rows = conn.rows ++ rowsFrom conn.nextId ds
  | [], conn => by simp [insertAll, rowsFrom]
  | d :: ds, conn => by
    show (insertAll (insert_log conn d) ds).rows = _
    rw [insertAll_rows ds (insert_log conn d)]
    simp [insert_log, rowsFrom]

lemma rowsFrom_map_toData (ds : List DataRecord) :
    ∀ n, (rowsFrom n ds).map Row.toData = ds := by
  induction ds with
  | nil => intro n; simp [rowsFrom]
  | cons d ds ih => intro n; simp [rowsFrom, ih, Row.toData, mkRow]

lemma rowsFrom_user (U : String) (ds : List DataRecord) (h : ∀ d ∈ ds, d.user = U) :
    ∀ n, ∀ r ∈ rowsFrom n ds, r.user = U := by
  induction ds with
  | nil => intro n r hr; simp [rowsFrom] at hr
  | cons d ds ih =>
    intro n r hr
    simp only [rowsFrom, List.mem_cons] at hr
    rcases hr with rfl | hr
    · exact h d (List.mem_cons_self d ds)
    · exact ih (fun x hx => h x (List.mem_cons_of_mem d hx)) (n+1) r hr

lemma foldl_submit_invariant (fs : List FormInput) :
    ∀ conn : Conn,
      (∀ r ∈ conn.rows, r.co2_kg =
        calculate_co2 r.car_km r.bus_km r.bike_walk_km r.electricity_kwh
          (r.meat_meals : ℚ) (r.veg_meals : ℚ) (r.plastic_items_avoided : ℚ)) →
      ∀ r ∈ (fs.foldl submit conn).rows, r.co2_kg =
        calculate_co2 r.car_km r.bus_km r.bike_walk_km r.electricity_kwh
          (r.meat_meals : ℚ) (r.veg_meals : ℚ) (r.plastic_items_avoided : ℚ) := by
  induction fs with
  | nil => intro conn h; exact h
  | cons f fs ih =>
    intro conn h
    apply ih
    intro r hr
    rw [show (submit conn f).rows = conn.rows ++ [mkRow conn.nextId (recordOf f)] from rfl,
      List.mem_append] at hr
    rcases hr with hr | hr
    · exact h r hr
    · rw [List.mem_singleton] at hr
      subst hr
      rfl

/-- Claim C1: for every seven non-negative inputs, `calculate_co2` equals the
weighted sum car_km·0.192 + bus_km·0.089 + bike_walk_km·0.0 +
electricity_kwh·0.82 + meat_meals·5.0 + veg_meals·2.0 −
plastic_items_avoided·0.1 rounded to 3 decimals; in particular it is 0.0 on
all-zero inputs and 10.0 on (10, 0, 0, 4, 1, 0, 2). -/
theorem calculate_co2_weighted_sum (a b c d e f g : ℚ)
    (ha : 0 ≤ a) (hb : 0 ≤ b) (hc : 0 ≤ c) (hd : 0 ≤ d)
    (he : 0 ≤ e) (hf : 0 ≤ f) (hg : 0 ≤ g) :
    calculate_co2 a b c d e f g =
        round3 (a * 0.192 + b * 0.089 + c * 0.0 + d * 0.82 + e * 5.0 + f * 2.0 - g * 0.1) ∧
      calculate_co2 0 0 0 0 0 0 0 = 0.0 ∧
      calculate_co2 10 0 0 4 1 0 2 = 10.0 := by
  refine ⟨?_, ?_, ?_⟩
  · unfold calculate_co2
    norm_num [EMISSION_FACTORS]
  · unfold calculate_co2
    rw [round3_exact _ 0 (by norm_num [EMISSION_FACTORS])]
    norm_num
  · unfold calculate_co2
    rw [round3_exact _ 10000 (by norm_num [EMISSION_FACTORS])]
    norm_num

/-- Witness for C1 at the concrete non-negative input (1, 2, 3, 4, 5, 6, 7). -/
theorem calculate_co2_weighted_sum_witness :
    calculate_co2 1 2 3 4 5 6 7 =
        round3 (1 * 0.192 + 2 * 0.089 + 3 * 0.0 + 4 * 0.82 + 5 * 5.0 + 6 * 2.0 - 7 * 0.1) ∧
      calculate_co2 0 0 0 0 0 0 0 = 0.0 ∧
      calculate_co2 10 0 0 4 1 0 2 = 10.0 :=
  calculate_co2_weighted_sum 1 2 3 4 5 6 7 (by norm_num) (by norm_num) (by norm_num)
    (by norm_num) (by norm_num) (by norm_num) (by norm_num)

/-- Counterexample to C2 as stated: all seven inputs are non-negative
(plastic_items_avoided = 1000, the rest 0), yet the saved-vs-baseline
percentage `main` computes is 1061.54, which exceeds 100. -/
theorem submission_pct_gt_100_example :
    ((0 : ℚ) ≤ 1000) ∧ submission_pct 0 0 0 0 0 0 1000 = 53077/50 ∧
      ¬(submission_pct 0 0 0 0 0 0 1000 ≤ 100) := by
  have hco2 : calculate_co2 0 0 0 0 0 0 1000 = -100 := by
    unfold calculate_co2
    rw [round3_exact _ (-100000) (by norm_num [EMISSION_FACTORS])]
    norm_num
  have hpct : pct_of (52/5) (-100) = 53077/50 := by
    unfold pct_of
    rw [if_pos (by norm_num : (52:ℚ)/5 > 0)]
    rw [show saved_of (52/5) (-100) / (52/5) * 100 = 1380000/13/100 by
      rw [show saved_of (52/5) (-100) = 552/5 by
        unfold saved_of
        rw [show max (0.0 : ℚ) (52/5 - (-100)) = 552/5 by norm_num]
        rw [round3_exact _ 110400 (by norm_num)]; norm_num]
      norm_num]
    unfold round2
    rw [show (1380000 : ℚ)/13/100 * 100 = 1380000/13 by ring]
    rw [round_rat_eq _ 106154 (by norm_num) (by norm_num)]
    norm_num
  have hs : submission_pct 0 0 0 0 0 0 1000 = 53077/50 := by
    unfold submission_pct
    rw [baseline_value, hco2, hpct]
  exact ⟨by norm_num, hs, by rw [hs]; norm_num⟩

/-- Claim C2, amended: for every seven non-negative inputs the percentage is
never negative, and it is at most 100 whenever the computed co2 is itself
non-negative (when plastic avoidance drives the computed co2 below zero the
percentage can exceed 100, so the upper bound needs that proviso). -/
theorem submission_pct_bounds (a b c d e f g : ℚ)
    (ha : 0 ≤ a) (hb : 0 ≤ b) (hc : 0 ≤ c) (hd : 0 ≤ d)
    (he : 0 ≤ e) (hf : 0 ≤ f) (hg : 0 ≤ g) :
    0 ≤ submission_pct a b c d e f g ∧
      (0 ≤ calculate_co2 a b c d e f g → submission_pct a b c d e f g ≤ 100) := by
  unfold submission_pct
  rw [baseline_value]
  set co2 := calculate_co2 a b c d e f g with hco2
  unfold pct_of
  rw [if_pos (by norm_num : (52:ℚ)/5 > 0)]
  have hsaved0 : 0 ≤ saved_of (52/5) co2 := by
    unfold saved_of
    have h1 : (0:ℚ) ≤ max 0.0 (52/5 - co2) := le_max_of_le_left (by norm_num)
    have := round3_mono h1
    rwa [round3_zero] at this
  constructor
  · have h2 : 0 ≤ saved_of (52/5) co2 / (52/5) * 100 := by positivity
    have := round2_mono h2
    rwa [round2_zero] at this
  · intro hpos
    have hle : saved_of (52/5) co2 ≤ 52/5 := by
      unfold saved_of
      have h1 : max (0.0 : ℚ) (52/5 - co2) ≤ 52/5 := by
        apply max_le
        · norm_num
        · linarith
      have hr : round3 ((52:ℚ)/5) = 52/5 := by
        rw [round3_exact _ 10400 (by norm_num)]; norm_num
      have := round3_mono h1
      rwa [hr] at this
    have h2 : saved_of (52/5) co2 / (52/5) * 100 ≤ 100 := by
      have : saved_of (52/5) co2 / (52/5) ≤ 1 := by
        rw [div_le_one (by norm_num : (0:ℚ) < 52/5)]
        exact hle
      linarith
    have hr : round2 (100 : ℚ) = 100 := by
      rw [round2_exact _ 10000 (by norm_num)]; norm_num
    have := round2_mono h2
    rwa [hr] at this

/-- Witness for the amended C2 at the concrete non-negative input
(10, 0, 0, 4, 1, 0, 2). -/
theorem submission_pct_bounds_witness :
    0 ≤ submission_pct 10 0 0 4 1 0 2 ∧
      (0 ≤ calculate_co2 10 0 0 4 1 0 2 → submission_pct 10 0 0 4 1 0 2 ≤ 100) :=
  submission_pct_bounds 10 0 0 4 1 0 2 (by norm_num) (by norm_num) (by norm_num)
    (by norm_num) (by norm_num) (by norm_num) (by norm_num)

/-- Counterexample to C3 as stated: for the user label U = "" (a possible
value of the free-text user widget), inserting one entry whose user field is
"" into a store holding another user's row and fetching with that label does
not return exactly the one inserted entry — the falsy guard skips the filter
and both rows come back. -/
theorem fetch_empty_label_breaks_roundtrip :
    (∀ d ∈ [dEmptyUser], d.user = "") ∧ (∀ r ∈ s0.rows, r.user ≠ "") ∧
      (fetch_logs (insertAll s0 [dEmptyUser]) (some "")).length ≠
        ([dEmptyUser] : List DataRecord).length := by
  refine ⟨?_, ?_, ?_⟩
  · intro d hd; rw [List.mem_singleton] at hd; subst hd; rfl
  · intro r hr
    rw [show s0.rows = [mkRow 1 dAlice] from rfl, List.mem_singleton] at hr
    subst hr; simp [mkRow, dAlice]
  · have hperm : (fetch_logs (insertAll s0 [dEmptyUser]) (some "")).Perm
        (insertAll s0 [dEmptyUser]).rows := by
      unfold fetch_logs
      rw [show rowsToFetch (insertAll s0 [dEmptyUser]) (some "") =
          (insertAll s0 [dEmptyUser]).rows by simp [rowsToFetch]]
      exact List.perm_insertionSort _ _
    rw [hperm.length_eq, insertAll_rows]
    simp [s0, rowsFrom]

/-- Claim C3, amended: for every NON-EMPTY user label U, inserting any list
of entries whose user field is U into a store holding no row labelled U and
fetching by U returns exactly those entries (as a permutation, every column
round-tripped), ordered by date ascending; the empty-string label instead
skips the filter and returns every row. -/
theorem insert_then_fetch_roundtrip (s : Conn) (U : String) (ds : List DataRecord)
    (hU : U ≠ "") (hds : ∀ d ∈ ds, d.user = U) (hs : ∀ r ∈ s.rows, r.user ≠ U) :
    ((fetch_logs (insertAll s ds) (some U)).map Row.toData).Perm ds ∧
      (fetch_logs (insertAll s ds) (some U)).Sorted (fun a b => a.date ≤ b.date) := by
  have hrows : (insertAll s ds).rows = s.rows ++ rowsFrom s.nextId ds := insertAll_rows ds s
  have hfilter : ((insertAll s ds).rows).filter (fun r => r.user = U) = rowsFrom s.nextId ds := by
    rw [hrows, List.filter_append]
    rw [List.filter_eq_nil_iff.mpr (by intro r hr; simpa using hs r hr)]
    rw [List.filter_eq_self.mpr (by intro r hr; simpa using rowsFrom_user U ds hds s.nextId r hr)]
    simp
  have hfetch : fetch_logs (insertAll s ds) (some U) =
      List.insertionSort (fun a b => a.date ≤ b.date) (rowsFrom s.nextId ds) := by
    unfold fetch_logs
    rw [show rowsToFetch (insertAll s ds) (some U) = rowsFrom s.nextId ds by
      simp only [rowsToFetch, if_neg hU]; exact hfilter]
  constructor
  · rw [hfetch]
    exact ((List.perm_insertionSort _ _).map Row.toData).trans
      (by rw [rowsFrom_map_toData])
  · rw [hfetch]
    exact List.sorted_insertionSort _ _

/-- Witness for the amended C3: one entry for the non-empty label u1
inserted into the fresh store round-trips through fetch. -/
theorem insert_then_fetch_roundtrip_witness :
    ((fetch_logs (insertAll init_db [dU1]) (some "u1")).map Row.toData).Perm [dU1] ∧
      (fetch_logs (insertAll init_db [dU1]) (some "u1")).Sorted
        (fun a b => a.date ≤ b.date) :=
  insert_then_fetch_roundtrip init_db "u1" [dU1] (by decide)
    (by intro d hd; rw [List.mem_singleton] at hd; subst hd; rfl)
    (by intro r hr; simp [init_db] at hr)

/-- Claim C4: in every store reachable from the fresh database by form
submissions, each stored row's co2_kg equals `calculate_co2` applied to the
row's own activity columns (the value computed at insertion time), and a
submission never alters the previously stored rows, so no stored co2_kg is
ever recomputed or overwritten. -/
theorem stored_co2_invariant :
    (∀ (fs : List FormInput), ∀ r ∈ (submitAll fs).rows, r.co2_kg =
        calculate_co2 r.car_km r.bus_km r.bike_walk_km r.electricity_kwh
          (r.meat_meals : ℚ) (r.veg_meals : ℚ) (r.plastic_items_avoided : ℚ)) ∧
      (∀ (conn : Conn) (f : FormInput),
        ((submit conn f).rows).take conn.rows.length = conn.rows) := by
  constructor
  · intro fs
    exact foldl_submit_invariant fs init_db (by intro r hr; simp [init_db] at hr)
  · intro conn f
    simp [submit, insert_log, List.take_left]

/-- Witness for C4: the row stored by the single submission `f0` carries
exactly the calculator's output for its own columns. -/
theorem stored_co2_invariant_witness :
    (mkRow 1 (recordOf f0)).co2_kg =
      calculate_co2 (mkRow 1 (recordOf f0)).car_km (mkRow 1 (recordOf f0)).bus_km
        (mkRow 1 (recordOf f0)).bike_walk_km (mkRow 1 (recordOf f0)).electricity_kwh
        ((mkRow 1 (recordOf f0)).meat_meals : ℚ) ((mkRow 1 (recordOf f0)).veg_meals : ℚ)
        ((mkRow 1 (recordOf f0)).plastic_items_avoided : ℚ) :=
  stored_co2_invariant.1 [f0] (mkRow 1 (recordOf f0))
    (by simp [submitAll, submit, insert_log, init_db])

/-- Counterexample to C5 as stated: two insertions whose records agree on
every column except the caller-supplied created_at leave the store in
different states, so `insert_log` stores the caller's created_at instead of
assigning one itself (`main` line 161 is where `datetime.now()` is read). -/
theorem insert_log_stores_caller_created_at :
    (dAlice.user = dB.user ∧ dAlice.date = dB.date ∧ dAlice.car_km = dB.car_km ∧
        dAlice.bus_km = dB.bus_km ∧ dAlice.bike_walk_km = dB.bike_walk_km ∧
        dAlice.electricity_kwh = dB.electricity_kwh ∧ dAlice.meat_meals = dB.meat_meals ∧
        dAlice.veg_meals = dB.veg_meals ∧
        dAlice.plastic_items_avoided = dB.plastic_items_avoided ∧
        dAlice.co2_kg = dB.co2_kg) ∧
      dAlice.created_at ≠ dB.created_at ∧
      insert_log init_db dAlice ≠ insert_log init_db dB :=
  ⟨⟨rfl, rfl, rfl, rfl, rfl, rfl, rfl, rfl, rfl, rfl⟩, by decide, by decide⟩

/-- Claim C5, amended: `insert_log` appends exactly one row and assigns the
row's surrogate id from store state (the caller's record has no id), but the
row's created_at is the value the caller passed in the record, stored
verbatim (`main` fills it with the current time before calling insert). -/
theorem insert_log_appends_assigning_id (conn : Conn) (data : DataRecord) :
    (insert_log conn data).rows = conn.rows ++ [mkRow conn.nextId data] ∧
      (mkRow conn.nextId data).id = conn.nextId ∧
      (mkRow conn.nextId data).created_at = data.created_at ∧
      (insert_log conn data).nextId = conn.nextId + 1 :=
  ⟨rfl, rfl, rfl, rfl⟩

/-- Claim C6: `insert_log` keeps every previously stored row unchanged, in
place, and adds exactly one row at the end; `fetch_logs` is a pure query
(it does not return a store), and insert and fetch are the only operations
the program performs on the logs table, so the table is append-only. -/
theorem logs_append_only (conn : Conn) (data : DataRecord) :
    ((insert_log conn data).rows).take conn.rows.length = conn.rows ∧
      ((insert_log conn data).rows).length = conn.rows.length + 1 := by
  constructor
  · simp [insert_log, List.take_left]
  · simp [insert_log]

/-- Claim C7: there are non-negative inputs on which `calculate_co2` is
strictly negative — the output is not clamped at zero when the plastic
avoidance credit dominates. -/
theorem calculate_co2_negative_possible :
    ∃ a b c d e f g : ℚ,
      (0 ≤ a ∧ 0 ≤ b ∧ 0 ≤ c ∧ 0 ≤ d ∧ 0 ≤ e ∧ 0 ≤ f ∧ 0 ≤ g) ∧
        calculate_co2 a b c d e f g < 0 := by
  refine ⟨0, 0, 0, 0, 0, 0, 1, by norm_num, ?_⟩
  unfold calculate_co2
  rw [round3_exact _ (-100) (by norm_num [EMISSION_FACTORS])]
  norm_num

/-- Claim C8: with a zero baseline the savings-percentage computation takes
the special-cased else branch and reports 0 for every co2 value, instead of
dividing by zero. -/
theorem zero_baseline_reports_zero_pct (co2 : ℚ) : pct_of 0 co2 = 0 := by
  unfold pct_of
  rw [if_neg (by norm_num : ¬((0:ℚ) > 0))]
  exact round2_zero

/-- Counterexample to C9 as stated: the empty-string user label has no
stored entries in the store `s0` (whose only row is labelled alice), yet
fetching with that label returns alice's row, not an empty result, because
the falsy guard skips the filter. -/
theorem fetch_empty_label_not_empty :
    (∀ r ∈ s0.rows, r.user ≠ "") ∧ fetch_logs s0 (some "") ≠ [] := by
  constructor
  · intro r hr
    rw [show s0.rows = [mkRow 1 dAlice] from rfl, List.mem_singleton] at hr
    subst hr; simp [mkRow, dAlice]
  · rw [show fetch_logs s0 (some "") = [mkRow 1 dAlice] from rfl]
    simp

/-- Claim C9, amended: for every NON-EMPTY user label with no stored
entries, in any store state, fetch returns the empty list rather than a
fault; the empty-string label instead returns all rows. -/
theorem fetch_unknown_user_empty (conn : Conn) (U : String)
    (hU : U ≠ "") (h : ∀ r ∈ conn.rows, r.user ≠ U) :
    fetch_logs conn (some U) = [] := by
  unfold fetch_logs
  rw [show rowsToFetch conn (some U) = [] by
    simp only [rowsToFetch, if_neg hU]
    exact List.filter_eq_nil_iff.mpr (by intro r hr; simpa using h r hr)]
  rfl

/-- Witness for the amended C9: the label zoe has no entries in `s0` and
fetching it returns the empty list. -/
theorem fetch_unknown_user_empty_witness : fetch_logs s0 (some "zoe") = [] :=
  fetch_unknown_user_empty s0 "zoe" (by decide)
    (by intro r hr
        rw [show s0.rows = [mkRow 1 dAlice] from rfl, List.mem_singleton] at hr
        subst hr; simp [mkRow, dAlice])

/-- Claim C10: fetching with the empty-string user label is identical to
fetching with no label at all — every stored row of every user comes back
(sorted by date), whatever the store holds, rows labelled with the empty
string included, because the Python guard `if user:` is falsy on "". -/
theorem fetch_empty_label_returns_all (conn : Conn) :
    fetch_logs conn (some "") = fetch_logs conn none ∧
      (fetch_logs conn (some "")).Perm conn.rows := by
  have h : rowsToFetch conn (some "") = conn.rows := by simp [rowsToFetch]
  constructor
  · unfold fetch_logs; rw [h]; rfl
  · unfold fetch_logs; rw [h]; exact List.perm_insertionSort _ _
